import Mathlib

/-!
# Portfolio risk dashboard (`src/src/app.js`)

A shallow embedding of the single React component `PortfolioRiskDashboard`:

* the module-level datasets (`portfolioPositions`, `sectorExposure`, `riskMetrics`,
  `complianceChecks`, `COLORS`);
* the arithmetic the component performs on them: the left fold that computes `totalAUM` and the
  `(x/1000000).toFixed(1)` formatting, with JavaScript number semantics (IEEE-754 binary64,
  round to nearest, ties to even) on the non-negative integer market values of the dataset;
* the `useState('overview')` tab selector and its setter;
* the render function: the header, the tab buttons and the four guarded content sections.

Styling (`className`), the chart library and the icon set are collaborators of the component and
are not modelled beyond the data handed to them.
-/

namespace Dashboard

/-! ## JavaScript numbers

Market values are non-negative integers, so a `Nat` stands for the integer-valued double with
that value.  A sum of two such doubles is the exact sum rounded to 53 significant bits; a
quotient is a double that need not be an integer and is kept as `mant * 2 ^ exp`.
Overflow to `Infinity` (values of `2 ^ 1024` and above) is outside the model. -/

/-- Number of binary digits of `n`, by repeated halving; `fuel` bounds the depth. -/
def bitLengthAux : Nat → Nat → Nat
  | 0, _ => 0
  | fuel + 1, n => if n = 0 then 0 else bitLengthAux fuel (n / 2) + 1

/-- Number of binary digits of `n` (`0` for `0`). -/
def bitLength (n : Nat) : Nat := bitLengthAux n n

/-- The integer nearest to `num / den`, a tie going to the even neighbour. -/
def roundHalfEven (num den : Nat) : Nat :=
  let q := num / den
  let r := num % den
  if 2 * r < den then q
  else if den < 2 * r then q + 1
  else if q % 2 = 0 then q else q + 1

/-- The double nearest to the integer `n` (ties to even): integers below `2 ^ 53` are doubles,
a longer integer keeps its 53 leading bits. -/
def roundDouble (n : Nat) : Nat :=
  if n < 2 ^ 53 then n
  else
    let s := bitLength n - 53
    roundHalfEven n (2 ^ s) * 2 ^ s

/-- JavaScript `a + b` on non-negative integer-valued doubles: the exact sum, rounded. -/
def jsAdd (a b : Nat) : Nat := roundDouble (a + b)

/-- A finite non-negative double, `mant * 2 ^ exp`. -/
structure Dyadic where
  mant : Nat
  exp : Int
  deriving DecidableEq

/-- Numerator of `a / (b * 2 ^ e)` once the power of two is moved to the side where its
exponent is non-negative. -/
def scaledNum (a : Nat) (e : Int) : Nat := a * 2 ^ (-e).toNat

/-- Denominator of `a / (b * 2 ^ e)`, see `scaledNum`. -/
def scaledDen (b : Nat) (e : Int) : Nat := b * 2 ^ e.toNat

/-- JavaScript `a / b` for integer-valued doubles `a ≥ 0` and `b > 0`: the exact quotient rounded
to a 53-bit significand.  The exponent `e` is the one with `2 ^ 52 ≤ a / (b * 2 ^ e) < 2 ^ 53`;
it is `bitLength a - bitLength b - 52` or one less. -/
def jsDiv (a b : Nat) : Dyadic :=
  if a = 0 then ⟨0, 0⟩
  else
    let e1 : Int := (bitLength a : Int) - (bitLength b : Int) - 52
    let e : Int := if 2 ^ 52 * scaledDen b e1 ≤ scaledNum a e1 then e1 else e1 - 1
    ⟨roundHalfEven (scaledNum a e) (scaledDen b e), e⟩

/-- The method `Number.prototype.toFixed(f)` on a finite non-negative double `x < 10 ^ 21`:
`n` is the integer for which `n / 10 ^ f - x` is closest to zero, the larger one on a tie; its
decimal digits are padded with zeros to `f + 1` characters and a point is set before the last
`f` of them.  For `x ≥ 10 ^ 21` the method defers to `Number::toString`, which is not modelled:
the result is `none` there. -/
def toFixed (x : Dyadic) (f : Nat) : Option String :=
  let num := x.mant * 2 ^ x.exp.toNat
  let den := 2 ^ (-x.exp).toNat
  if 10 ^ 21 * den ≤ num then none
  else
    let n := (2 * (num * 10 ^ f) + den) / (2 * den)
    let m := Nat.toDigits 10 n
    let m := if f = 0 then m
      else
        let m := if m.length ≤ f then List.replicate (f + 1 - m.length) '0' ++ m else m
        m.take (m.length - f) ++ '.' :: m.drop (m.length - f)
    some (String.mk m)

/-- The JSX text made of a literal dollar sign, the expression `(v/1000000).toFixed(1)` and a
literal `M`. -/
def formatMillions (v : Nat) : Option String :=
  (toFixed (jsDiv v 1000000) 1).map (fun s => "$" ++ s ++ "M")

/-! ## Datasets -/

/-- An element of `portfolioPositions`. -/
structure Position where
  symbol : String
  name : String
  type : String
  value : Nat
  weight : ℚ
  sector : String
  risk : String
  deriving DecidableEq

/-- An element of `sectorExposure`. -/
structure SectorExposure where
  sector : String
  exposure : ℚ
  limit : ℚ
  status : String
  deriving DecidableEq

/-- An element of `riskMetrics`. -/
structure RiskMetric where
  metric : String
  value : String
  status : String
  threshold : String
  deriving DecidableEq

/-- An element of `complianceChecks`. -/
structure ComplianceCheck where
  rule : String
  status : String
  detail : String
  deriving DecidableEq

def portfolioPositions : List Position :=
  [ ⟨"AAPL", "Apple Inc", "Equity", 2500000, 12.5, "Technology", "Medium"⟩,
    ⟨"GOOGL", "Google", "Equity", 2000000, 10.0, "Technology", "Medium"⟩,
    ⟨"JPM", "JPMorgan Chase", "Equity", 1800000, 9.0, "Financials", "High"⟩,
    ⟨"US10Y", "US 10Y Treasury", "Fixed Income", 3000000, 15.0, "Government", "Low"⟩,
    ⟨"CORP_BD", "Corporate Bonds", "Fixed Income", 2200000, 11.0, "Corporate", "Medium"⟩,
    ⟨"SPY_OPT", "SPY Options", "Derivatives", 1500000, 7.5, "Derivatives", "High"⟩ ]

def sectorExposure : List SectorExposure :=
  [ ⟨"Technology", 22.5, 25.0, "OK"⟩,
    ⟨"Financials", 9.0, 15.0, "OK"⟩,
    ⟨"Government", 15.0, 20.0, "OK"⟩,
    ⟨"Corporate", 11.0, 12.0, "Warning"⟩,
    ⟨"Derivatives", 7.5, 10.0, "OK"⟩ ]

def riskMetrics : List RiskMetric :=
  [ ⟨"Portfolio VaR (1-day)", "$450,000", "Normal", "$500,000"⟩,
    ⟨"Duration Risk", "4.2 years", "Normal", "5.0 years"⟩,
    ⟨"Beta to S&P 500", "0.85", "Normal", "1.2"⟩,
    ⟨"Credit Risk", "A+ Average", "Good", "A-"⟩ ]

def complianceChecks : List ComplianceCheck :=
  [ ⟨"Single Name Concentration", "PASS", "Max position: 12.5% (Limit: 15%)"⟩,
    ⟨"Sector Concentration", "WARNING", "Corporate bonds at 92% of limit"⟩,
    ⟨"Liquidity Requirements", "PASS", "Daily liquidity: 85% (Required: 70%)"⟩,
    ⟨"Derivative Exposure", "PASS", "Notional: 7.5% (Limit: 10%)"⟩ ]

def COLORS : List String := ["#0088FE", "#00C49F", "#FFBB28", "#FF8042", "#8884D8"]

/-- The module-level constants the component reads, gathered so that the component can be
examined on any data of the same shape. -/
structure Dataset where
  portfolioPositions : List Position
  sectorExposure : List SectorExposure
  riskMetrics : List RiskMetric
  complianceChecks : List ComplianceCheck

/-- The data of `app.js`. -/
def dataset : Dataset :=
  ⟨portfolioPositions, sectorExposure, riskMetrics, complianceChecks⟩

/-! ## Derived metric -/

/-- The fold `portfolioPositions.reduce((sum, pos) => sum + pos.value, 0)`. -/
def totalAUM (positions : List Position) : Nat :=
  positions.foldl (fun sum pos => jsAdd sum pos.value) 0

/-! ## View state -/

/-- The component state: the `selectedTab` cell of `useState`.  It is a free-form string. -/
structure State where
  selectedTab : String
  deriving DecidableEq

/-- The state at mount: `useState('overview')`. -/
def initialState : State := ⟨"overview"⟩

/-- The state setter `setSelectedTab(id)`: the cell takes the new value. -/
def setSelectedTab (id : String) (s : State) : State :=
  { s with selectedTab := id }

/-! ## Rendered output -/

/-- An entry of the array literal the navigation bar maps over. -/
structure Tab where
  id : String
  label : String
  icon : String
  deriving DecidableEq

/-- The four tabs of the navigation bar. -/
def tabs : List Tab :=
  [ ⟨"overview", "Portfolio Overview", "TrendingUp"⟩,
    ⟨"risk", "Risk Analytics", "Shield"⟩,
    ⟨"compliance", "Compliance", "AlertTriangle"⟩,
    ⟨"reporting", "Client Reporting", "FileText"⟩ ]

/-- A tab button: `key`, the highlight chosen by `selectedTab === tab.id`, the icon, the label,
and the id its `onClick` hands to `setSelectedTab`. -/
structure TabButton where
  key : String
  active : Bool
  icon : String
  label : String
  onClick : String
  deriving DecidableEq

/-- A row of the Top Holdings card. -/
structure HoldingRow where
  key : Nat
  symbol : String
  typeSector : String
  valueText : Option String
  weight : ℚ
  deriving DecidableEq

/-- A card of the risk metrics grid; `tone` is the colour picked from the status. -/
structure RiskCard where
  key : Nat
  tone : String
  status : String
  metric : String
  value : String
  threshold : String
  deriving DecidableEq

/-- A bar of the risk decomposition chart. -/
structure RiskContribution where
  name : String
  contribution : Nat
  var : Nat
  deriving DecidableEq

/-- A row of the compliance list; `pass` is the test `check.status === 'PASS'` that picks the
green dot and the green badge over the warning icon and the yellow badge. -/
structure ComplianceRow where
  key : Nat
  pass : Bool
  rule : String
  detail : String
  status : String
  deriving DecidableEq

/-- A callout of the Recommended Actions list. -/
structure Recommendation where
  title : String
  body : String
  deriving DecidableEq

/-- The four content sections, each with what it displays. -/
inductive Section where
  | overview (pieData : List Position) (pieCells : List String)
      (topHoldings : List HoldingRow) (sectorBars : List SectorExposure)
  | risk (cards : List RiskCard) (decomposition : List RiskContribution)
  | compliance (rows : List ComplianceRow) (regulatoryUpdates : List String)
  | reporting (totalAssets : Option String) (riskAdjustedReturn : String)
      (complianceStatus : String) (keyObservations : List String)
      (recommendedActions : List Recommendation)
  deriving DecidableEq

/-- What the component returns: the header with its Total AUM figure, the navigation bar, and
the children of the main content area that are rendered. -/
structure View where
  title : String
  subtitle : String
  totalAUMFigure : Option String
  tabButtons : List TabButton
  content : List Section
  deriving DecidableEq

/-- The tab button of `tab` under the current selection. -/
def tabButton (selectedTab : String) (tab : Tab) : TabButton :=
  ⟨tab.id, selectedTab == tab.id, tab.icon, tab.label, tab.id⟩

/-- The pie cells: `portfolioPositions.map`, cell `index` filled with
`COLORS[index % COLORS.length]`. -/
def pieCells (positions : List Position) : List String :=
  positions.enum.map (fun (index, _) => COLORS.getD (index % COLORS.length) "")

/-- The body of the Top Holdings `map` callback. -/
def holdingRow (index : Nat) (position : Position) : HoldingRow :=
  ⟨index, position.symbol, position.type ++ " • " ++ position.sector,
    formatMillions position.value, position.weight⟩

/-- The rows `portfolioPositions.slice(0, 6).map((position, index) => ...)`. -/
def topHoldings (positions : List Position) : List HoldingRow :=
  (positions.take 6).enum.map (fun (index, position) => holdingRow index position)

/-- The status colour of a risk card: green for `Good`, blue for `Normal`, yellow otherwise. -/
def riskTone (status : String) : String :=
  if status = "Good" then "green" else if status = "Normal" then "blue" else "yellow"

/-- The body of the risk metrics `map` callback. -/
def riskCard (index : Nat) (metric : RiskMetric) : RiskCard :=
  ⟨index, riskTone metric.status, metric.status, metric.metric, metric.value,
    "Threshold: " ++ metric.threshold⟩

/-- The cards `riskMetrics.map((metric, index) => ...)`. -/
def riskCards (metrics : List RiskMetric) : List RiskCard :=
  metrics.enum.map (fun (index, metric) => riskCard index metric)

/-- The literal data of the Risk Decomposition chart. -/
def riskDecomposition : List RiskContribution :=
  [ ⟨"Equities", 65, 290000⟩, ⟨"Fixed Income", 20, 90000⟩, ⟨"Derivatives", 15, 70000⟩ ]

/-- The body of the compliance `map` callback. -/
def complianceRow (index : Nat) (check : ComplianceCheck) : ComplianceRow :=
  ⟨index, check.status == "PASS", check.rule, check.detail, check.status⟩

/-- The rows `complianceChecks.map((check, index) => ...)`. -/
def complianceRows (checks : List ComplianceCheck) : List ComplianceRow :=
  checks.enum.map (fun (index, check) => complianceRow index check)

/-- The Regulatory Updates notice. -/
def regulatoryUpdates : List String :=
  [ "• New SEC reporting requirements effective Q3 2025",
    "• Updated liquidity risk management rules coming in Q4",
    "• Enhanced derivative reporting thresholds updated" ]

/-- The Key Observations bullets. -/
def keyObservations : List String :=
  [ "• Portfolio maintains conservative risk profile with VaR below institutional limits",
    "• Technology sector allocation approaching maximum threshold - recommend monitoring",
    "• Fixed income duration risk well within acceptable parameters",
    "• All regulatory compliance checks passed with minor corporate bond concentration warning",
    "• Liquidity position exceeds minimum requirements by 15%" ]

/-- The Recommended Actions callouts. -/
def recommendedActions : List Recommendation :=
  [ ⟨"Monitor Corporate Bond Exposure",
      "Corporate bond sector at 92% of limit - consider rebalancing"⟩,
    ⟨"Technology Sector Review",
      "Tech allocation healthy but approaching limits - prepare for potential rebalancing"⟩ ]

/-- The section guarded by `selectedTab === 'overview'`. -/
def overviewSection (d : Dataset) : Section :=
  .overview d.portfolioPositions (pieCells d.portfolioPositions)
    (topHoldings d.portfolioPositions) d.sectorExposure

/-- The section guarded by `selectedTab === 'risk'`. -/
def riskSection (d : Dataset) : Section :=
  .risk (riskCards d.riskMetrics) riskDecomposition

/-- The section guarded by `selectedTab === 'compliance'`. -/
def complianceSection (d : Dataset) : Section :=
  .compliance (complianceRows d.complianceChecks) regulatoryUpdates

/-- The section guarded by `selectedTab === 'reporting'`; `aum` is the component's `totalAUM`. -/
def reportingSection (aum : Nat) : Section :=
  .reporting (formatMillions aum) "1.24" "PASS" keyObservations recommendedActions

/-- The JSX child `cond && element`: the element when the test holds, otherwise `false`,
which renders nothing. -/
def renderIf (cond : Bool) (element : Section) : Option Section :=
  if cond then some element else none

/-- The component function: one render with the state `s` over the data `d`. -/
def PortfolioRiskDashboard (d : Dataset) (s : State) : View :=
  let selectedTab := s.selectedTab
  let totalAUM := totalAUM d.portfolioPositions
  { title := "Portfolio Risk Management"
    subtitle := "Institutional Client Dashboard - Powered by Aladdin Technology"
    totalAUMFigure := formatMillions totalAUM
    tabButtons := tabs.map (tabButton selectedTab)
    content :=
      [ renderIf (selectedTab == "overview") (overviewSection d),
        renderIf (selectedTab == "risk") (riskSection d),
        renderIf (selectedTab == "compliance") (complianceSection d),
        renderIf (selectedTab == "reporting") (reportingSection totalAUM) ].reduceOption }

/-- A click on the tab button `b`: its `onClick` calls `setSelectedTab(tab.id)`. -/
def click (b : TabButton) (s : State) : State :=
  setSelectedTab b.onClick s

/-- The name of a section, to tell which of the four a rendered child is. -/
def Section.id : Section → String
  | .overview .. => "overview"
  | .risk .. => "risk"
  | .compliance .. => "compliance"
  | .reporting .. => "reporting"

/-! ## Evaluation points used below -/

/-- A list whose first value is `2 ^ 53`, followed by two values of `1`. -/
def largeFirst : List Position :=
  [ ⟨"BIG", "Large holding", "Equity", 9007199254740992, 100, "Technology", "High"⟩,
    ⟨"ONE", "Small holding", "Equity", 1, 0, "Technology", "Low"⟩,
    ⟨"ONE", "Small holding", "Equity", 1, 0, "Technology", "Low"⟩ ]

/-- The positions of `largeFirst`, the large one moved to the end. -/
def largeLast : List Position :=
  [ ⟨"ONE", "Small holding", "Equity", 1, 0, "Technology", "Low"⟩,
    ⟨"ONE", "Small holding", "Equity", 1, 0, "Technology", "Low"⟩,
    ⟨"BIG", "Large holding", "Equity", 9007199254740992, 100, "Technology", "High"⟩ ]

/-- A list of two positions worth `2 ^ 53` and `1`. -/
def largePair : List Position :=
  [ ⟨"BIG", "Large holding", "Equity", 9007199254740992, 100, "Technology", "High"⟩,
    ⟨"ONE", "Small holding", "Equity", 1, 0, "Technology", "Low"⟩ ]

/-! ## Auxiliary facts -/

/-- Integers up to `2 ^ 53` are doubles: rounding leaves them unchanged. -/
theorem roundDouble_of_le (n : Nat) (h : n ≤ 2 ^ 53) : roundDouble n = n := by
  rcases Nat.lt_or_eq_of_le h with h | h
  · unfold roundDouble; rw [if_pos h]
  · subst h; decide

/-- The arithmetic on known values: `2 ^ 53 + 1` and `2 ^ 53 + 3` round to their even
neighbours, `1 / 1000000` is the double `4722366482869645 * 2 ^ (-72)`, and `toFixed` works on
the binary value of its argument (`1.005` lies below the decimal tie, `0.25` is a tie and
takes the larger digit). -/
theorem number_model_values :
    roundDouble (2 ^ 53 + 1) = 2 ^ 53 ∧
    roundDouble (2 ^ 53 + 3) = 2 ^ 53 + 4 ∧
    jsDiv 1 1000000 = ⟨4722366482869645, -72⟩ ∧
    toFixed (jsDiv 1005 1000) 2 = some "1.00" ∧
    toFixed (jsDiv 25 100) 1 = some "0.3" ∧
    toFixed (jsDiv 0 1000000) 1 = some "0.0" ∧
    formatMillions 150000 = some "$0.1M" :=
  ⟨by decide, by decide, by decide, by decide, by decide, by decide, by decide⟩

/-- While the running total stays within `2 ^ 53`, the fold adds exactly. -/
theorem foldl_jsAdd_exact (ps : List Position) :
    ∀ acc : Nat, acc + (ps.map (fun pos => pos.value)).sum ≤ 2 ^ 53 →
      ps.foldl (fun sum pos => jsAdd sum pos.value) acc
        = acc + (ps.map (fun pos => pos.value)).sum := by
  induction ps with
  | nil => intro acc _; simp
  | cons p ps ih =>
    intro acc h
    simp only [List.map_cons, List.sum_cons] at h
    have hstep : jsAdd acc p.value = acc + p.value :=
      roundDouble_of_le _ (by omega)
    simp only [List.foldl_cons, List.map_cons, List.sum_cons, hstep]
    rw [ih (acc + p.value) (by omega)]
    omega

/-- Within `2 ^ 53` the computed total is the exact sum of the values. -/
theorem totalAUM_exact (ps : List Position)
    (h : (ps.map (fun pos => pos.value)).sum ≤ 2 ^ 53) :
    totalAUM ps = (ps.map (fun pos => pos.value)).sum := by
  have := foldl_jsAdd_exact ps 0 (by simpa using h)
  simpa [totalAUM] using this

/-- The rendered children under a selection: the four guarded children, the `false` ones
dropped. -/
theorem content_eq (d : Dataset) (s : State) :
    (PortfolioRiskDashboard d s).content =
      [ renderIf (s.selectedTab == "overview") (overviewSection d),
        renderIf (s.selectedTab == "risk") (riskSection d),
        renderIf (s.selectedTab == "compliance") (complianceSection d),
        renderIf (s.selectedTab == "reporting")
          (reportingSection (totalAUM d.portfolioPositions)) ].reduceOption := rfl

/-! ## Total AUM -/

/-- C1 (as stated, refuted): `largeLast` is a permutation of `largeFirst`, every value in them is
a double, and yet the fold returns `2 ^ 53` on one and `2 ^ 53 + 2` on the other: once the
running total reaches `2 ^ 53` an added `1` is lost to rounding. -/
theorem totalAUM_order_dependent :
    List.Perm largeFirst largeLast ∧
    (∀ p ∈ largeFirst, roundDouble p.value = p.value) ∧
    totalAUM largeFirst = 9007199254740992 ∧
    totalAUM largeLast = 9007199254740994 ∧
    totalAUM largeFirst ≠ totalAUM largeLast :=
  ⟨(List.perm_append_comm : List.Perm ([_] ++ [_, _]) ([_, _] ++ [_])),
    by decide, by decide, by decide, by decide⟩

/-- C1 (amended): for every list of positions whose values sum to at most `2 ^ 53`, the fold
returns the same total on every permutation of the list. -/
theorem totalAUM_perm (ps qs : List Position) (hperm : List.Perm ps qs)
    (hsum : (ps.map (fun pos => pos.value)).sum ≤ 2 ^ 53) :
    totalAUM ps = totalAUM qs := by
  have hpq : (ps.map (fun pos => pos.value)).sum = (qs.map (fun pos => pos.value)).sum :=
    (hperm.map _).sum_eq
  rw [totalAUM_exact ps hsum, totalAUM_exact qs (hpq ▸ hsum), hpq]

/-- C1 (witness): the dataset and the dataset reversed. -/
theorem totalAUM_perm_witness :
    List.Perm portfolioPositions portfolioPositions.reverse ∧
    (portfolioPositions.map (fun pos => pos.value)).sum ≤ 2 ^ 53 ∧
    totalAUM portfolioPositions = totalAUM portfolioPositions.reverse :=
  ⟨(List.reverse_perm _).symm, by decide,
    totalAUM_perm _ _ (List.reverse_perm _).symm (by decide)⟩

/-- C6 (as stated, refuted): on `largePair` the values sum to `2 ^ 53 + 1`, which is not a
double; the fold returns `2 ^ 53`. -/
theorem totalAUM_rounds_large_sum :
    (∀ p ∈ largePair, roundDouble p.value = p.value) ∧
    (largePair.map (fun pos => pos.value)).sum = 9007199254740993 ∧
    totalAUM largePair = 9007199254740992 ∧
    totalAUM largePair ≠ (largePair.map (fun pos => pos.value)).sum :=
  ⟨by decide, by decide, by decide, by decide⟩

/-- C6 (amended): the empty list yields `0`, and for every list of positions whose values sum to
at most `2 ^ 53` the fold returns the sum of the values. -/
theorem totalAUM_eq_sum :
    totalAUM [] = 0 ∧
    ∀ ps : List Position, (ps.map (fun pos => pos.value)).sum ≤ 2 ^ 53 →
      totalAUM ps = (ps.map (fun pos => pos.value)).sum :=
  ⟨rfl, totalAUM_exact⟩

/-- C6 (witness): the dataset, whose values sum to 13,000,000. -/
theorem totalAUM_eq_sum_witness :
    (portfolioPositions.map (fun pos => pos.value)).sum ≤ 2 ^ 53 ∧
    totalAUM portfolioPositions = (portfolioPositions.map (fun pos => pos.value)).sum :=
  ⟨by decide, totalAUM_eq_sum.2 portfolioPositions (by decide)⟩

/-- C2: on the fixed dataset the fold returns 13,000,000, and the header figure, whatever the
selected tab, is the text `$13.0M`. -/
theorem dataset_totalAUM :
    portfolioPositions.map (fun pos => pos.value)
      = [2500000, 2000000, 1800000, 3000000, 2200000, 1500000] ∧
    totalAUM portfolioPositions = 13000000 ∧
    ∀ s : State, (PortfolioRiskDashboard dataset s).totalAUMFigure = some "$13.0M" :=
  ⟨rfl, by decide, fun _ =>
    show formatMillions (totalAUM portfolioPositions) = some "$13.0M" by decide⟩

/-- C5: for every dataset, the reporting section is rendered with a Total Assets figure that is
the header figure of the same render, and both are the formatting of the one `totalAUM` value
folded from the positions; the state holds no total of its own. -/
theorem reporting_totalAssets (d : Dataset) :
    (PortfolioRiskDashboard d ⟨"reporting"⟩).content =
      [Section.reporting (PortfolioRiskDashboard d ⟨"reporting"⟩).totalAUMFigure
        "1.24" "PASS" keyObservations recommendedActions] ∧
    (PortfolioRiskDashboard d ⟨"reporting"⟩).totalAUMFigure
      = formatMillions (totalAUM d.portfolioPositions) ∧
    ∀ s : State, s = ⟨s.selectedTab⟩ :=
  ⟨rfl, rfl, fun _ => rfl⟩

/-! ## View selection -/

/-- C3: for each of the four tab ids, a render with that id selected has exactly one content
section, the one guarded by that id; the other three are absent. -/
theorem valid_tab_renders_its_section (d : Dataset) :
    ((PortfolioRiskDashboard d ⟨"overview"⟩).content = [overviewSection d] ∧
      (PortfolioRiskDashboard d ⟨"overview"⟩).content.map Section.id = ["overview"]) ∧
    ((PortfolioRiskDashboard d ⟨"risk"⟩).content = [riskSection d] ∧
      (PortfolioRiskDashboard d ⟨"risk"⟩).content.map Section.id = ["risk"]) ∧
    ((PortfolioRiskDashboard d ⟨"compliance"⟩).content = [complianceSection d] ∧
      (PortfolioRiskDashboard d ⟨"compliance"⟩).content.map Section.id = ["compliance"]) ∧
    ((PortfolioRiskDashboard d ⟨"reporting"⟩).content
        = [reportingSection (totalAUM d.portfolioPositions)] ∧
      (PortfolioRiskDashboard d ⟨"reporting"⟩).content.map Section.id = ["reporting"]) ∧
    tabs.map (fun tab => tab.id) = ["overview", "risk", "compliance", "reporting"] :=
  ⟨⟨rfl, rfl⟩, ⟨rfl, rfl⟩, ⟨rfl, rfl⟩, ⟨rfl, rfl⟩, rfl⟩

/-- C4: for every id other than the four tab ids, a render with that id selected returns a view
(the render is a total function, nothing is raised) whose content area has no section. -/
theorem unknown_tab_renders_nothing (d : Dataset) (id : String)
    (h1 : id ≠ "overview") (h2 : id ≠ "risk") (h3 : id ≠ "compliance")
    (h4 : id ≠ "reporting") :
    (PortfolioRiskDashboard d ⟨id⟩).content = [] := by
  simp [content_eq, renderIf, List.reduceOption, h1, h2, h3, h4]

/-- C4 (witness): the id `settings` on the dataset. -/
theorem unknown_tab_renders_nothing_witness :
    (PortfolioRiskDashboard dataset ⟨"settings"⟩).content = [] :=
  unknown_tab_renders_nothing dataset "settings" (by decide) (by decide) (by decide)
    (by decide)

/-- C9: the state at mount selects `overview`, and the first render has the overview section as
its only content section. -/
theorem initial_view_is_overview (d : Dataset) :
    initialState.selectedTab = "overview" ∧
    (PortfolioRiskDashboard d initialState).content = [overviewSection d] ∧
    (PortfolioRiskDashboard d initialState).content.map Section.id = ["overview"] :=
  ⟨rfl, rfl, rfl⟩

/-- C10: selecting `id` leaves a state that is `id` and nothing else, whatever the state before;
selecting it a second time gives the same state and the same render, and so does a second click
on the same tab button. -/
theorem select_twice (d : Dataset) (s : State) (id : String) :
    setSelectedTab id s = ⟨id⟩ ∧
    setSelectedTab id (setSelectedTab id s) = setSelectedTab id s ∧
    PortfolioRiskDashboard d (setSelectedTab id (setSelectedTab id s))
      = PortfolioRiskDashboard d (setSelectedTab id s) ∧
    (PortfolioRiskDashboard d (setSelectedTab id (setSelectedTab id s))).content
      = (PortfolioRiskDashboard d (setSelectedTab id s)).content ∧
    ∀ b : TabButton, click b (click b s) = click b s :=
  ⟨rfl, rfl, rfl, rfl, fun _ => rfl⟩

/-! ## Lists shown by the sections -/

/-- C7: with the compliance tab selected the section shows the rows made from the dataset's
checks: as many rows as checks, row `i` carrying the rule, detail and status of check `i`; for
the fixed dataset that is four rows. -/
theorem compliance_rows (d : Dataset) :
    (PortfolioRiskDashboard d ⟨"compliance"⟩).content
      = [Section.compliance (complianceRows d.complianceChecks) regulatoryUpdates] ∧
    (complianceRows d.complianceChecks).length = d.complianceChecks.length ∧
    (∀ i : Nat, (complianceRows d.complianceChecks)[i]?.map
        (fun r => (r.key, r.rule, r.detail, r.status))
      = d.complianceChecks[i]?.map (fun c => (i, c.rule, c.detail, c.status))) ∧
    (complianceRows complianceChecks).length = 4 := by
  refine ⟨rfl, by simp [complianceRows], ?_, rfl⟩
  intro i
  simp only [complianceRows, List.getElem?_map, List.enum, List.getElem?_enumFrom]
  cases d.complianceChecks[i]? <;> simp [complianceRow]

/-- C8: with the overview tab selected the Top Holdings list has `min 6 n` rows, row `i` made
from position `i` of the list as declared; on the fixed dataset these are all six positions in
their declared order. -/
theorem top_holdings (d : Dataset) :
    (PortfolioRiskDashboard d ⟨"overview"⟩).content
      = [Section.overview d.portfolioPositions (pieCells d.portfolioPositions)
          (topHoldings d.portfolioPositions) d.sectorExposure] ∧
    (topHoldings d.portfolioPositions).length = min 6 d.portfolioPositions.length ∧
    (∀ i : Nat, (topHoldings d.portfolioPositions)[i]?
      = if i < 6 then d.portfolioPositions[i]?.map (holdingRow i) else none) ∧
    topHoldings portfolioPositions
      = (portfolioPositions.enum.map fun (i, p) => holdingRow i p) ∧
    (topHoldings portfolioPositions).map (fun r => r.symbol)
      = ["AAPL", "GOOGL", "JPM", "US10Y", "CORP_BD", "SPY_OPT"] := by
  refine ⟨rfl, by simp [topHoldings], ?_, rfl, by decide⟩
  intro i
  simp only [topHoldings, List.getElem?_map, List.enum, List.getElem?_enumFrom]
  by_cases h : i < 6
  · simp only [h, List.getElem?_take, if_true]
    cases d.portfolioPositions[i]? <;> simp
  · simp [h, List.getElem?_take]

end Dashboard
